import Mathlib

/-!
Verification of the call-origination / event-correlation / state-machine
subsystem of the infocall repository, as a shallow embedding in Lean.

The Python source of each embedded function is named in its doc comment.
Machine state that in the source lives in module-level dictionaries guarded
by locks (`active_calls`, `pending_correlations`, `_dtmf_state_buffer`) is
passed explicitly; wall-clock timestamps are rationals counting seconds.
-/

namespace InfoCall

/-- The call statuses appearing in the status hierarchy of
`update_call_status` (services/asterisk_service.py, lines 396-400). -/
inductive CallStatus
  | unknown
  | pending
  | waiting
  | dialing
  | ringing
  | answered
  | dtmf_received
  | completed
  | opted_out
  | noanswer
  | busy
  | rejected
  | aborted
  deriving DecidableEq, Repr, Fintype

/-- `status_hierarchy` from services/asterisk_service.py lines 396-400. -/
def significance : CallStatus → Nat
  | .unknown => 0
  | .pending => 1
  | .waiting => 2
  | .dialing => 10
  | .ringing => 20
  | .answered => 50
  | .dtmf_received => 60
  | .completed => 70
  | .opted_out => 80
  | .noanswer => 90
  | .busy => 90
  | .rejected => 90
  | .aborted => 90

/-- The terminal-status set `['completed', 'noanswer', 'busy', 'rejected',
'aborted', 'opted_out']` used at lines 430 and 472 of
services/asterisk_service.py. -/
def isTerminal : CallStatus → Bool
  | .completed => true
  | .noanswer => true
  | .busy => true
  | .rejected => true
  | .aborted => true
  | .opted_out => true
  | _ => false

/-- `current_status in ['dialing', 'ringing']` (asterisk_service.py line 445). -/
def isDialingOrRinging (s : CallStatus) : Bool :=
  decide (s = CallStatus.dialing) || decide (s = CallStatus.ringing)

/-- One entry of the `active_calls[campaign][phone]` dictionary
(app_state.py line 25, shape documented at line 24):
status, details, timestamp, action_id, uniqueid, finalized_in_memory. -/
structure CallRecord where
  status : CallStatus
  details : Option String
  timestamp : ℚ
  action_id : Option String
  uniqueid : Option String
  finalized_in_memory : Bool
  deriving DecidableEq, Repr

/-- The "definitive final state override" branch of `update_call_status`
(asterisk_service.py line 448): already finalized, the new status is one of
completed/opted_out/aborted, and its significance is strictly lower. -/
def defOverrideB (cur : CallStatus) (fin : Bool) (ns : CallStatus) : Bool :=
  fin &&
    (decide (ns = CallStatus.completed) || decide (ns = CallStatus.opted_out) ||
      decide (ns = CallStatus.aborted)) &&
    decide (significance ns < significance cur)

/-- The "AMI final status override stuck status" branch of
`update_call_status` (asterisk_service.py line 451): already finalized, the
new status is one of noanswer/busy/rejected, and the current status is stuck
in dialing or ringing. -/
def stuckOverrideB (cur : CallStatus) (fin : Bool) (ns : CallStatus) : Bool :=
  fin &&
    (decide (ns = CallStatus.noanswer) || decide (ns = CallStatus.busy) ||
      decide (ns = CallStatus.rejected)) &&
    isDialingOrRinging cur

/-- `allow_update` as computed by the elif chain at asterisk_service.py
lines 436-453, as a function of the current status, the
`finalized_in_memory` flag and the new status. -/
def allowB (cur : CallStatus) (fin : Bool) (ns : CallStatus) : Bool :=
  decide (significance cur < significance ns) ||
  decide (ns = cur) ||
  (isDialingOrRinging cur &&
    !(decide (ns = CallStatus.pending) || decide (ns = CallStatus.waiting) ||
      decide (ns = CallStatus.unknown))) ||
  defOverrideB cur fin ns ||
  stuckOverrideB cur fin ns

/-- `details or 'Status manually reset'` (asterisk_service.py line 411):
Python `or` takes the default when `details` is `None` or the empty string. -/
def waitingDetails : Option String → String
  | some d => if d = "" then "Status manually reset" else d
  | none => "Status manually reset"

/-- `update_call_status` (services/asterisk_service.py lines 378-480),
restricted to the single `(campaign_id, phone_number)` record it mutates.
`cur` is the record stored before the call (`none` when the phone has no
entry, in which case `current_status` is the empty string and the
"Initial status setting" branch at line 420 fires). -/
def update_call_status (cur : Option CallRecord) (now : ℚ) (status : CallStatus)
    (details action_id uniqueid : Option String) : Option CallRecord :=
  -- line 407: `if status == 'waiting'` - unconditional manual reset
  if status = CallStatus.waiting then
    some { status := CallStatus.waiting
           details := some (waitingDetails details)
           timestamp := now
           action_id := action_id.orElse fun _ => cur.bind (·.action_id)
           uniqueid := uniqueid.orElse fun _ => cur.bind (·.uniqueid)
           finalized_in_memory := false }
  else
    match cur with
    | none =>
        -- line 420: `if not current_status` - create the record
        some { status := status
               details := details
               timestamp := now
               action_id := action_id
               uniqueid := uniqueid
               finalized_in_memory := isTerminal status }
    | some r =>
        let allow := allowB r.status r.finalized_in_memory status
        -- line 457: `if is_already_finalized and not allow_update: return`
        if r.finalized_in_memory && !allow then some r
        -- line 461: `if allow_update`
        else if allow then
          some { status := status
                 details := details
                 timestamp := now
                 action_id := action_id.orElse fun _ => r.action_id
                 uniqueid := uniqueid.orElse fun _ => r.uniqueid
                 finalized_in_memory := isTerminal status }
        else some r

/-- `needle` matches at the head of `hay` (character-wise equality). -/
def matchesHead : List Char → List Char → Bool
  | [], _ => true
  | _ :: _, [] => false
  | c :: cs, h :: hs => decide (c = h) && matchesHead cs hs

/-- Python's substring test `needle in hay` on lists of characters. -/
def containsSub (needle hay : List Char) : Bool :=
  match hay with
  | [] => needle.isEmpty
  | _ :: hs => matchesHead needle hay || containsSub needle hs

/-- Python `needle in hay.lower()` for the fixed lowercase needles of the
Hangup branch (call_service.py lines 373-379); lowering is per-character
(the cause texts are ASCII). -/
def lowerContains (hay needle : String) : Bool :=
  containsSub needle.toList (hay.toList.map Char.toLower)

/-- The `final_status` chosen by the `Hangup` branch of
`direct_event_handler_with_optout` (services/call_service.py lines 357-384)
from the record's current in-memory status and the event's human-readable
`Cause-txt`.  The `details` string computed alongside is dropped here; it
does not feed the status decision. -/
def hangup_final_status (cur : Option CallStatus) (cause : String) : CallStatus :=
  if cur = some CallStatus.opted_out then CallStatus.opted_out
  else if cur = some CallStatus.aborted then CallStatus.aborted
  else if lowerContains cause "user busy" then CallStatus.busy
  else if lowerContains cause "no answer" || lowerContains cause "timeout" then
    CallStatus.noanswer
  else if lowerContains cause "rejected" || lowerContains cause "congestion" ||
      lowerContains cause "unallocated" then
    CallStatus.rejected
  else CallStatus.completed

/-- The arguments of one `update_call_status` call on a fixed
`(campaign, phone)` record. -/
structure UpdateArgs where
  now : ℚ
  status : CallStatus
  details : Option String
  action_id : Option String
  uniqueid : Option String
  deriving DecidableEq, Repr

/-- Apply one bundled `update_call_status` call. -/
def applyUpdate (cur : Option CallRecord) (u : UpdateArgs) : Option CallRecord :=
  update_call_status cur u.now u.status u.details u.action_id u.uniqueid

/-- Apply a sequence of `update_call_status` calls, oldest first. -/
def applyUpdates (cur : Option CallRecord) (us : List UpdateArgs) : Option CallRecord :=
  us.foldl applyUpdate cur

/-! ### The single-record scenario of claim C1, step by step. -/

/-- Scenario start: the `(campaign, recipient)` pair has no record. -/
def c1_s0 : Option CallRecord := none

/-- Scenario step 1: `update(dialing)` on the absent record. -/
def c1_s1 : Option CallRecord :=
  update_call_status c1_s0 0 CallStatus.dialing (some "Auto-initiated") (some "a1") none

/-- Scenario step 2: `update(ringing)`. -/
def c1_s2 : Option CallRecord :=
  update_call_status c1_s1 1 CallStatus.ringing (some "Phone is ringing") none (some "u1")

/-- Scenario step 3: `update(dialing)` again, after ringing. -/
def c1_s3 : Option CallRecord :=
  update_call_status c1_s2 2 CallStatus.dialing (some "Originate successful") none (some "u1")

/-- Scenario step 4: `update(answered)`. -/
def c1_s4 : Option CallRecord :=
  update_call_status c1_s3 3 CallStatus.answered (some "Call answered") none (some "u1")

/-- Scenario step 5: a disconnect event with cause `NORMAL_CLEARING`; the
Hangup handler classifies the cause and pushes the resulting status. -/
def c1_s5 : Option CallRecord :=
  update_call_status c1_s4 4
    (hangup_final_status (c1_s4.map (·.status)) "NORMAL_CLEARING")
    (some "Call completed: NORMAL_CLEARING") none (some "u1")

/-- Scenario step 6: `update(ringing)` after finalization. -/
def c1_s6 : Option CallRecord :=
  update_call_status c1_s5 5 CallStatus.ringing (some "Phone is ringing") none (some "u1")

/-- C1, counterexample: in the spec's scenario, the second `update(dialing)`
— issued while the record is `ringing` — is NOT rejected: the store applies
it (the dialing/ringing branch at asterisk_service.py line 445 accepts any
new status outside pending/waiting/unknown, regardless of significance), so
the record's status drops back to `dialing` instead of staying `ringing`. -/
theorem c1_dialing_after_ringing_applied :
    c1_s3 ≠ c1_s2 ∧ c1_s3.map (·.status) = some CallStatus.dialing ∧
      c1_s2.map (·.status) = some CallStatus.ringing := by
  refine ⟨by decide, by decide, by decide⟩

/-- C1, amended: the scenario as the code actually runs it: `update(dialing)`
creates the record with `finalized=false`; `update(ringing)` is applied; the
second `update(dialing)` is applied rather than rejected (its significance is
lower, but the current status is `ringing` and `dialing` is not in
pending/waiting/unknown); `update(answered)` is applied; a disconnect with
cause `NORMAL_CLEARING` classifies to `completed` and finalizes the record;
and the subsequent `update(ringing)` is rejected. -/
theorem c1_scenario_amended :
    c1_s1.map (·.status) = some CallStatus.dialing ∧
    c1_s1.map (·.finalized_in_memory) = some false ∧
    c1_s2.map (·.status) = some CallStatus.ringing ∧
    c1_s3.map (·.status) = some CallStatus.dialing ∧
    c1_s4.map (·.status) = some CallStatus.answered ∧
    hangup_final_status (c1_s4.map (·.status)) "NORMAL_CLEARING" =
      CallStatus.completed ∧
    c1_s5.map (·.status) = some CallStatus.completed ∧
    c1_s5.map (·.finalized_in_memory) = some true ∧
    c1_s6 = c1_s5 := by
  refine ⟨by decide, by decide, by decide, by decide, by decide, by decide,
    by decide, by decide, by decide⟩

/-! ### C3: significance is non-decreasing once finalized -/

/-- The documented exception paths for one `update_call_status` call on the
current record `c`: the unconditional `waiting` reset (asterisk_service.py
line 407), the "definitive final state override" (line 448) and the
"AMI final status override stuck status" (line 451). -/
def exceptionStep (c : Option CallRecord) (u : UpdateArgs) : Bool :=
  match c with
  | none => decide (u.status = CallStatus.waiting)
  | some r =>
      decide (u.status = CallStatus.waiting) ||
      defOverrideB r.status r.finalized_in_memory u.status ||
      stuckOverrideB r.status r.finalized_in_memory u.status

/-- On a finalized record whose status is terminal, any allowed update that
is not one of the two overrides has a status of no lower significance, and
that status is again terminal. -/
lemma allowB_terminal_mono : ∀ cur ns : CallStatus, isTerminal cur = true →
    defOverrideB cur true ns = false → stuckOverrideB cur true ns = false →
    allowB cur true ns = true →
    significance cur ≤ significance ns ∧ isTerminal ns = true := by decide

/-- Well-formedness of store records: the `finalized_in_memory` flag agrees
with the status being terminal.  Every write performed by
`update_call_status` recomputes the flag this way (asterisk_service.py
lines 415, 428-431, 472-476), so all records it produces are well-formed. -/
def recordWF (r : CallRecord) : Prop :=
  r.finalized_in_memory = isTerminal r.status

/-- `update_call_status` preserves record well-formedness. -/
theorem update_call_status_preserves_wf (c : Option CallRecord) (u : UpdateArgs)
    (h : ∀ r, c = some r → recordWF r) :
    ∀ r', applyUpdate c u = some r' → recordWF r' := by
  intro r' h'
  unfold applyUpdate update_call_status at h'
  by_cases hw : u.status = CallStatus.waiting
  · rw [if_pos hw] at h'
    cases h'
    rfl
  · rw [if_neg hw] at h'
    match c, h with
    | none, _ =>
        cases h'
        rfl
    | some r, h =>
        have hr := h r rfl
        simp only at h'
        by_cases hfin : (r.finalized_in_memory &&
            !allowB r.status r.finalized_in_memory u.status) = true
        · rw [if_pos hfin] at h'
          cases h'
          exact hr
        · rw [if_neg hfin] at h'
          by_cases hA : allowB r.status r.finalized_in_memory u.status = true
          · rw [if_pos hA] at h'
            cases h'
            rfl
          · rw [if_neg hA] at h'
            cases h'
            exact hr

/-- A single exception-free `update_call_status` call on a finalized,
terminal-status record yields a finalized terminal record of no lower
significance. -/
lemma applyUpdate_finalized_mono (r : CallRecord) (u : UpdateArgs)
    (hw : isTerminal r.status = true) (hf : r.finalized_in_memory = true)
    (hex : exceptionStep (some r) u = false) :
    ∃ r', applyUpdate (some r) u = some r' ∧ isTerminal r'.status = true ∧
      r'.finalized_in_memory = true ∧
      significance r.status ≤ significance r'.status := by
  simp only [exceptionStep, Bool.or_eq_false_iff, decide_eq_false_iff_not] at hex
  obtain ⟨⟨hwait, hdef⟩, hstuck⟩ := hex
  rw [hf] at hdef hstuck
  by_cases hA : allowB r.status true u.status = true
  · obtain ⟨hle, hterm⟩ :=
      allowB_terminal_mono r.status u.status hw hdef hstuck hA
    refine ⟨{ status := u.status, details := u.details, timestamp := u.now,
              action_id := u.action_id.orElse fun _ => r.action_id,
              uniqueid := u.uniqueid.orElse fun _ => r.uniqueid,
              finalized_in_memory := isTerminal u.status }, ?_, hterm, hterm, hle⟩
    simp [applyUpdate, update_call_status, hwait, hf, hA]
  · refine ⟨r, ?_, hw, hf, le_refl _⟩
    simp [applyUpdate, update_call_status, hwait, hf, hA]

/-- A sequence of exception-free `update_call_status` calls on a finalized,
terminal-status record yields a finalized terminal record of no lower
significance. -/
lemma applyUpdates_finalized_mono :
    ∀ (us : List UpdateArgs) (r : CallRecord), isTerminal r.status = true →
      r.finalized_in_memory = true →
      (∀ pre u suf, us = pre ++ u :: suf →
        exceptionStep (applyUpdates (some r) pre) u = false) →
      ∃ r', applyUpdates (some r) us = some r' ∧ isTerminal r'.status = true ∧
        r'.finalized_in_memory = true ∧
        significance r.status ≤ significance r'.status := by
  intro us
  induction us with
  | nil => exact fun r hw hf _ => ⟨r, rfl, hw, hf, le_refl _⟩
  | cons u rest ih =>
      intro r hw hf hex
      have h0 : exceptionStep (some r) u = false := hex [] u rest rfl
      obtain ⟨r1, he1, hw1, hf1, hs1⟩ := applyUpdate_finalized_mono r u hw hf h0
      have hstep : applyUpdates (some r) (u :: rest) = applyUpdates (some r1) rest := by
        simp [applyUpdates, he1]
      have hex1 : ∀ pre u' suf, rest = pre ++ u' :: suf →
          exceptionStep (applyUpdates (some r1) pre) u' = false := by
        intro pre u' suf hsplit
        have h2 := hex (u :: pre) u' suf (by rw [hsplit]; rfl)
        have h3 : applyUpdates (some r) (u :: pre) = applyUpdates (some r1) pre := by
          simp [applyUpdates, he1]
        rwa [h3] at h2
      obtain ⟨r', he', hw', hf', hs'⟩ := ih r1 hw1 hf1 hex1
      exact ⟨r', by rw [hstep]; exact he', hw', hf', le_trans hs1 hs'⟩

/-- C3: for every sequence of `update_call_status` calls on one
`(campaign, recipient)` record, once the record is finalized (its flag set
and, as all records written by the store satisfy, its status terminal), the
significance of its status never decreases across any split of the
sequence, provided no call in the sequence takes one of the exception
paths: the unconditional `waiting` reset, the definitive terminal-over-
terminal override, or the stuck-dialing/ringing override. -/
theorem c3_finalized_significance_monotone
    (r : CallRecord) (us l1 l2 : List UpdateArgs)
    (hw : isTerminal r.status = true) (hf : r.finalized_in_memory = true)
    (hsplit : us = l1 ++ l2)
    (hex : ∀ pre u suf, us = pre ++ u :: suf →
      exceptionStep (applyUpdates (some r) pre) u = false) :
    ∃ r1 r2, applyUpdates (some r) l1 = some r1 ∧
      applyUpdates (some r) us = some r2 ∧
      significance r.status ≤ significance r1.status ∧
      significance r1.status ≤ significance r2.status := by
  have hex1 : ∀ pre u suf, l1 = pre ++ u :: suf →
      exceptionStep (applyUpdates (some r) pre) u = false := by
    intro pre u suf h
    exact hex pre u (suf ++ l2) (by rw [hsplit, h]; simp)
  obtain ⟨r1, he1, hw1, hf1, hs1⟩ := applyUpdates_finalized_mono l1 r hw hf hex1
  have hex2 : ∀ pre u suf, l2 = pre ++ u :: suf →
      exceptionStep (applyUpdates (some r1) pre) u = false := by
    intro pre u suf h
    have h2 := hex (l1 ++ pre) u suf (by rw [hsplit, h]; simp)
    have h3 : applyUpdates (some r) (l1 ++ pre) = applyUpdates (some r1) pre := by
      simp [applyUpdates, List.foldl_append]
      rw [show List.foldl applyUpdate (some r) l1 = some r1 from he1]
    rwa [h3] at h2
  obtain ⟨r2, he2, hw2, hf2, hs2⟩ := applyUpdates_finalized_mono l2 r1 hw1 hf1 hex2
  refine ⟨r1, r2, he1, ?_, hs1, hs2⟩
  rw [hsplit]
  show List.foldl applyUpdate (some r) (l1 ++ l2) = some r2
  rw [List.foldl_append, show List.foldl applyUpdate (some r) l1 = some r1 from he1]
  exact he2

/-- A concrete finalized `completed` record, for the C3 witness. -/
def c3wRecord : CallRecord :=
  ⟨CallStatus.completed, none, 0, none, none, true⟩

/-- A concrete `opted_out` update, for the C3 witness. -/
def c3wUpdate : UpdateArgs :=
  ⟨1, CallStatus.opted_out, none, none, none⟩

/-- C3 witness: a finalized `completed` record receiving one exception-free
`opted_out` update keeps a non-decreasing significance (70 then 80). -/
theorem c3_witness_completed_then_opted_out :
    ∃ r1 r2,
      applyUpdates (some c3wRecord) [] = some r1 ∧
      applyUpdates (some c3wRecord) [c3wUpdate] = some r2 ∧
      significance c3wRecord.status ≤ significance r1.status ∧
      significance r1.status ≤ significance r2.status := by
  refine c3_finalized_significance_monotone c3wRecord _ [] _ (by decide)
    (by decide) rfl ?_
  intro pre u suf h
  cases pre with
  | nil =>
      simp only [List.nil_append, List.cons.injEq] at h
      obtain ⟨h1, h2⟩ := h
      rw [← h1]
      decide
  | cons a l => simp at h

/-! ### C4: disconnect-cause classification -/

/-- `matchesHead` holds exactly when the needle is an initial segment. -/
lemma matchesHead_iff : ∀ n h : List Char, matchesHead n h = true ↔ ∃ t, h = n ++ t := by
  intro n
  induction n with
  | nil =>
      intro h
      simp [matchesHead]
  | cons c cs ih =>
      intro h
      cases h with
      | nil => simp [matchesHead]
      | cons x xs =>
          simp only [matchesHead, Bool.and_eq_true, decide_eq_true_eq, ih xs,
            List.cons_append, List.cons.injEq]
          constructor
          · rintro ⟨rfl, t, rfl⟩
            exact ⟨t, rfl, rfl⟩
          · rintro ⟨t, rfl, rfl⟩
            exact ⟨rfl, t, rfl⟩

/-- `containsSub` is exactly the substring (infix) relation. -/
lemma containsSub_iff : ∀ n h : List Char, containsSub n h = true ↔
    ∃ l1 l2, h = l1 ++ n ++ l2 := by
  intro n h
  induction h with
  | nil =>
      simp only [containsSub, List.isEmpty_iff]
      constructor
      · rintro rfl
        exact ⟨[], [], rfl⟩
      · rintro ⟨l1, l2, he⟩
        cases l1 <;> cases n <;> simp_all
  | cons x xs ih =>
      simp only [containsSub, Bool.or_eq_true, matchesHead_iff, ih]
      constructor
      · rintro (⟨t, ht⟩ | ⟨l1, l2, hl⟩)
        · exact ⟨[], t, by simpa using ht⟩
        · exact ⟨x :: l1, l2, by simp [hl]⟩
      · rintro ⟨l1, l2, he⟩
        cases l1 with
        | nil =>
            exact Or.inl ⟨l2, by simpa using he⟩
        | cons y ys =>
            simp only [List.cons_append, List.cons.injEq] at he
            exact Or.inr ⟨ys, l2, he.2⟩

/-- The spec-level reading of "case-insensitive substring matching": the
lowercase needle occurs inside the lowercased cause text. -/
def hasSubstrCI (cause needle : String) : Prop :=
  ∃ l1 l2, cause.toList.map Char.toLower = l1 ++ needle.toList ++ l2

/-- The boolean scan performed by the code coincides with the spec-level
substring relation. -/
lemma lowerContains_iff (cause needle : String) :
    lowerContains cause needle = true ↔ hasSubstrCI cause needle :=
  containsSub_iff needle.toList (cause.toList.map Char.toLower)

/-- C4, counterexample: the cause text `"busy"` does contain the substring
`"busy"`, yet the Hangup handler classifies it as `completed`, not `busy` —
the code matches the substring `"user busy"` (call_service.py line 373), not
`"busy"`. -/
theorem c4_bare_busy_classifies_completed :
    hangup_final_status (some CallStatus.answered) "busy" = CallStatus.completed ∧
      CallStatus.completed ≠ CallStatus.busy := by
  exact ⟨by decide, by decide⟩

/-- C4, amended: disconnect-event handling classifies the cause by
case-insensitive substring matching — substring `"user busy"` (not `"busy"`)
maps to `busy`; `"no answer"` or `"timeout"` to `noanswer`; `"rejected"`,
`"congestion"` or `"unallocated"` to `rejected`; anything else to
`completed` — and a record currently `opted_out` or `aborted` keeps that
status regardless of the cause. -/
theorem c4_hangup_classification (cur : Option CallStatus) (cause : String) :
    (cur = some CallStatus.opted_out →
      hangup_final_status cur cause = CallStatus.opted_out) ∧
    (cur = some CallStatus.aborted →
      hangup_final_status cur cause = CallStatus.aborted) ∧
    (cur ≠ some CallStatus.opted_out → cur ≠ some CallStatus.aborted →
      ((hasSubstrCI cause "user busy" →
          hangup_final_status cur cause = CallStatus.busy) ∧
       (¬hasSubstrCI cause "user busy" →
        (hasSubstrCI cause "no answer" ∨ hasSubstrCI cause "timeout") →
          hangup_final_status cur cause = CallStatus.noanswer) ∧
       (¬hasSubstrCI cause "user busy" → ¬hasSubstrCI cause "no answer" →
        ¬hasSubstrCI cause "timeout" →
        (hasSubstrCI cause "rejected" ∨ hasSubstrCI cause "congestion" ∨
         hasSubstrCI cause "unallocated") →
          hangup_final_status cur cause = CallStatus.rejected) ∧
       (¬hasSubstrCI cause "user busy" → ¬hasSubstrCI cause "no answer" →
        ¬hasSubstrCI cause "timeout" → ¬hasSubstrCI cause "rejected" →
        ¬hasSubstrCI cause "congestion" → ¬hasSubstrCI cause "unallocated" →
          hangup_final_status cur cause = CallStatus.completed))) := by
  refine ⟨fun h => by simp [hangup_final_status, h], ?_, ?_⟩
  · intro h
    simp [hangup_final_status, h]
  · intro h1 h2
    have hbool : ∀ needle : String, ¬hasSubstrCI cause needle →
        lowerContains cause needle = false := by
      intro needle hn
      rw [← Bool.not_eq_true, lowerContains_iff]
      exact hn
    refine ⟨?_, ?_, ?_, ?_⟩
    · intro hb
      rw [← lowerContains_iff] at hb
      simp [hangup_final_status, h1, h2, hb]
    · intro hb hna
      rw [← lowerContains_iff, ← lowerContains_iff] at hna
      have hb' := hbool _ hb
      rcases hna with hna | hna <;>
        simp [hangup_final_status, h1, h2, hb', hna]
    · intro hb hna ht hr
      rw [← lowerContains_iff, ← lowerContains_iff, ← lowerContains_iff] at hr
      have hb' := hbool _ hb
      have hna' := hbool _ hna
      have ht' := hbool _ ht
      rcases hr with hr | hr | hr <;>
        simp [hangup_final_status, h1, h2, hb', hna', ht', hr]
    · intro hb hna ht hr hc hu
      simp [hangup_final_status, h1, h2, hbool _ hb, hbool _ hna, hbool _ ht,
        hbool _ hr, hbool _ hc, hbool _ hu]

/-- C4 witness: the mixed-case cause `"USER BUSY"` carries the substring
`"user busy"` case-insensitively and classifies to `busy` when the record is
currently `answered`. -/
theorem c4_witness_user_busy :
    hangup_final_status (some CallStatus.answered) "USER BUSY" = CallStatus.busy :=
  ((c4_hangup_classification (some CallStatus.answered) "USER BUSY").2.2
    (by decide) (by decide)).1 ⟨[], [], by decide⟩

/-! ### C5: DTMF buffer and opt-out detection -/

/-- `DTMF_TIMEOUT_SECONDS = 2.0` (services/call_service.py line 130). -/
def DTMF_TIMEOUT_SECONDS : ℚ := 2

/-- One `_dtmf_state_buffer` entry, `{'buffer': ..., 'timestamp': ...}`
(services/call_service.py line 402); the timestamp is `None` before the
first digit. -/
structure DTMFState where
  buffer : String
  timestamp : Option ℚ
  deriving DecidableEq, Repr

/-- The gap test of call_service.py line 404: reset when there is no
previous timestamp or the gap since the last digit exceeds 2.0 seconds. -/
def dtmfGapReset (s : DTMFState) (now : ℚ) : Bool :=
  match s.timestamp with
  | none => true
  | some t => decide (now - t > DTMF_TIMEOUT_SECONDS)

/-- Observable outcome of one `DTMFEnd` event for one phone number:
the stored buffer state, the statuses pushed into the Call State Store, and
the member id whose persisted `remove_from_call` flag is set to 1. -/
structure DTMFResult where
  state : DTMFState
  pushes : List CallStatus
  setDoNotCall : Option Nat
  deriving DecidableEq, Repr

/-- The `DTMFEnd` branch of `direct_event_handler_with_optout`
(services/call_service.py lines 393-440) for one digit.  A `dtmf_received`
update is always pushed (line 398).  The buffer is reset to the digit after
a gap over 2.0 s, else the digit is appended (lines 404-411).  When the
buffer equals the opt-out sequence `"0#"` and the phone number resolves to
a member id (the `SELECT id FROM members` lookup, modelled by the
`memberId` argument), the member's do-not-call flag is set, one `opted_out`
update is pushed, and the buffer is cleared (lines 416-436). -/
def dtmf_handle_digit (s : DTMFState) (digit : String) (now : ℚ)
    (memberId : Option Nat) : DTMFResult :=
  let buf1 := if dtmfGapReset s now then digit else s.buffer ++ digit
  let s1 : DTMFState := { buffer := buf1, timestamp := some now }
  if buf1 = "0#" then
    match memberId with
    | some mid =>
        { state := { buffer := "", timestamp := some now }
          pushes := [CallStatus.dtmf_received, CallStatus.opted_out]
          setDoNotCall := some mid }
    | none => { state := s1, pushes := [CallStatus.dtmf_received], setDoNotCall := none }
  else { state := s1, pushes := [CallStatus.dtmf_received], setDoNotCall := none }

/-- C5: a digit arriving more than 2.0 s after the previous one resets the
buffer to that digit; a digit within 2.0 s is appended; and when `0` then
`#` arrive within 2.0 s of each other (for a recipient resolving to a
member), the first digit triggers no opt-out while the second triggers
exactly one: one `opted_out` store update, the member's do-not-call flag
set, and the buffer cleared. -/
theorem c5_dtmf_optout (s : DTMFState) (digit : String) (t tA tB t1 t2 : ℚ)
    (mid : Nat) :
    (s.timestamp = some t → tA - t > 2 → digit ≠ "0#" →
      (dtmf_handle_digit s digit tA (some mid)).state.buffer = digit) ∧
    (s.timestamp = some t → tB - t ≤ 2 → s.buffer ++ digit ≠ "0#" →
      (dtmf_handle_digit s digit tB (some mid)).state.buffer = s.buffer ++ digit) ∧
    (dtmfGapReset s t1 = true → t2 - t1 ≤ 2 →
      ((dtmf_handle_digit s "0" t1 (some mid)).pushes.count CallStatus.opted_out = 0 ∧
       (dtmf_handle_digit s "0" t1 (some mid)).setDoNotCall = none ∧
       (dtmf_handle_digit s "0" t1 (some mid)).state.buffer = "0" ∧
       (dtmf_handle_digit (dtmf_handle_digit s "0" t1 (some mid)).state
          "#" t2 (some mid)).pushes.count CallStatus.opted_out = 1 ∧
       (dtmf_handle_digit (dtmf_handle_digit s "0" t1 (some mid)).state
          "#" t2 (some mid)).setDoNotCall = some mid ∧
       (dtmf_handle_digit (dtmf_handle_digit s "0" t1 (some mid)).state
          "#" t2 (some mid)).state.buffer = "")) := by
  refine ⟨?_, ?_, ?_⟩
  · intro hts hgap hne
    have hreset : dtmfGapReset s tA = true := by
      simp only [dtmfGapReset, hts, DTMF_TIMEOUT_SECONDS, decide_eq_true_eq]
      linarith
    simp [dtmf_handle_digit, hreset, hne]
  · intro hts hgap hne
    have hreset : dtmfGapReset s tB = false := by
      simp only [dtmfGapReset, hts, DTMF_TIMEOUT_SECONDS,
        decide_eq_false_iff_not, not_lt]
      linarith
    simp [dtmf_handle_digit, hreset, hne]
  · intro hreset1 hgap
    have h1 : dtmf_handle_digit s "0" t1 (some mid) =
        ⟨⟨"0", some t1⟩, [CallStatus.dtmf_received], none⟩ := by
      simp [dtmf_handle_digit, hreset1]
    have hreset2 : dtmfGapReset ⟨"0", some t1⟩ t2 = false := by
      simp only [dtmfGapReset, DTMF_TIMEOUT_SECONDS,
        decide_eq_false_iff_not, not_lt]
      linarith
    have h2 : dtmf_handle_digit ⟨"0", some t1⟩ "#" t2 (some mid) =
        ⟨⟨"", some t2⟩, [CallStatus.dtmf_received, CallStatus.opted_out],
          some mid⟩ := by
      simp [dtmf_handle_digit, hreset2]
    refine ⟨?_, ?_, ?_, ?_, ?_, ?_⟩ <;> simp [h1, h2, List.count_cons]

/-- C5 witness: concrete runs — a digit after a 3 s gap resets the buffer,
a digit after a 1 s gap appends, and the pair 0,# one second apart performs
exactly one opt-out. -/
theorem c5_witness_concrete :
    ((dtmf_handle_digit ⟨"5", some 10⟩ "7" 13 (some 3)).state.buffer = "7") ∧
    ((dtmf_handle_digit ⟨"5", some 10⟩ "7" 11 (some 3)).state.buffer = "57") ∧
    ((dtmf_handle_digit ⟨"5", some 10⟩ "0" 20 (some 3)).pushes.count
        CallStatus.opted_out = 0 ∧
     (dtmf_handle_digit ⟨"5", some 10⟩ "0" 20 (some 3)).setDoNotCall = none ∧
     (dtmf_handle_digit ⟨"5", some 10⟩ "0" 20 (some 3)).state.buffer = "0" ∧
     (dtmf_handle_digit (dtmf_handle_digit ⟨"5", some 10⟩ "0" 20 (some 3)).state
        "#" 21 (some 3)).pushes.count CallStatus.opted_out = 1 ∧
     (dtmf_handle_digit (dtmf_handle_digit ⟨"5", some 10⟩ "0" 20 (some 3)).state
        "#" 21 (some 3)).setDoNotCall = some 3 ∧
     (dtmf_handle_digit (dtmf_handle_digit ⟨"5", some 10⟩ "0" 20 (some 3)).state
        "#" 21 (some 3)).state.buffer = "") :=
  ⟨(c5_dtmf_optout ⟨"5", some 10⟩ "7" 10 13 11 20 21 3).1 rfl (by norm_num)
      (by decide),
   (c5_dtmf_optout ⟨"5", some 10⟩ "7" 10 13 11 20 21 3).2.1 rfl (by norm_num)
      (by decide),
   (c5_dtmf_optout ⟨"5", some 10⟩ "7" 10 13 11 20 21 3).2.2
      (by norm_num [dtmfGapReset, DTMF_TIMEOUT_SECONDS]) (by norm_num)⟩

/-! ### C6: pending correlation cache -/

/-- One `pending_correlations[phone]` entry (call_service.py lines 33-38):
campaign id, action id, registration timestamp. -/
structure PendingEntry where
  campaign_id : String
  action_id : String
  timestamp : ℚ
  deriving DecidableEq, Repr

/-- `get_pending_campaign` (services/call_service.py lines 41-51): returns
the updated `pending_correlations` map and the looked-up campaign.  An
entry older than 120 s is deleted and `None` returned; otherwise the
campaign id is returned. -/
def get_pending_campaign (pend : String → Option PendingEntry) (now : ℚ)
    (phone : String) : (String → Option PendingEntry) × Option String :=
  match pend phone with
  | none => (pend, none)
  | some e =>
      if now - e.timestamp > 120 then
        (fun p => if p = phone then none else pend p, none)
      else (pend, some e.campaign_id)

/-- A concrete one-entry pending-correlation map registered at time 0. -/
def c6Pend : String → Option PendingEntry :=
  fun p => if p = "15551234567" then some ⟨"7", "a1", 0⟩ else none

/-- C6, counterexample: a lookup performed exactly 120 s after registration
still returns the campaign, although the entry is not younger than 120 s —
the code's cutoff is `> 120`, not `≥ 120` (call_service.py line 47). -/
theorem c6_lookup_at_exactly_120s :
    (get_pending_campaign c6Pend 120 "15551234567").2 = some "7" ∧
      ¬((120 : ℚ) - 0 < 120) := by
  refine ⟨?_, by norm_num⟩
  norm_num [get_pending_campaign, c6Pend]

/-- C6, amended: a lookup strictly more than 120 s after registration never
returns the entry's campaign (the entry is deleted and nothing returned);
a lookup at age at most 120 s (not: strictly younger than 120 s) returns
the campaign. -/
theorem c6_lookup_freshness (pend : String → Option PendingEntry) (now : ℚ)
    (phone : String) (e : PendingEntry) (he : pend phone = some e) :
    (now - e.timestamp > 120 →
      (get_pending_campaign pend now phone).2 = none ∧
      (get_pending_campaign pend now phone).1 phone = none) ∧
    (now - e.timestamp ≤ 120 →
      (get_pending_campaign pend now phone).2 = some e.campaign_id) := by
  constructor
  · intro hgt
    simp [get_pending_campaign, he, hgt]
  · intro hle
    have hno : ¬(now - e.timestamp > 120) := not_lt.mpr hle
    simp [get_pending_campaign, he, hno]

/-- C6 witness: at age 121 s the entry is treated as absent; at age 100 s
the campaign is returned. -/
theorem c6_witness_fresh_and_stale :
    ((get_pending_campaign c6Pend 121 "15551234567").2 = none ∧
      (get_pending_campaign c6Pend 121 "15551234567").1 "15551234567" = none) ∧
    (get_pending_campaign c6Pend 100 "15551234567").2 = some "7" :=
  ⟨(c6_lookup_freshness c6Pend 121 "15551234567" ⟨"7", "a1", 0⟩ (by decide)).1
      (by norm_num),
   (c6_lookup_freshness c6Pend 100 "15551234567" ⟨"7", "a1", 0⟩ (by decide)).2
      (by norm_num)⟩

/-! ### C2: campaign promotion race -/

/-- One `scheduled_calls` row, restricted to the columns `Call.update_status`
writes (models/call.py). -/
structure CampaignRow where
  status : String
  details : Option String
  deriving DecidableEq, Repr

/-- The row-level effect of the UPDATE issued by `Call.update_status`
(models/call.py lines 92-95): `SET status` always; `SET details`
additionally when the Python `details` argument is truthy (neither `None`
nor empty).  The boolean is the connector's affected-rows count
(`rows_updated > 0`): the MySQL connector in use (utils/db.py,
mysql.connector with default connection flags) counts only rows actually
CHANGED, so rewriting a row with the values it already holds reports zero
rows. -/
def dbUpdateStatusRow (row : CampaignRow) (status : String)
    (details : Option String) : CampaignRow × Bool :=
  match details with
  | some d =>
      if d = "" then
        ({ row with status := status }, decide (row.status ≠ status))
      else
        ({ row with status := status, details := some d },
          decide (row.status ≠ status ∨ row.details ≠ some d))
  | none => ({ row with status := status }, decide (row.status ≠ status))

/-- `Call.update_status` (models/call.py lines 87-101) on the persisted
table keyed by campaign id: the committed table and the success boolean;
a missing id matches no row and returns False. -/
def Call.update_status (db : String → Option CampaignRow) (id status : String)
    (details : Option String) : (String → Option CampaignRow) × Bool :=
  match db id with
  | none => (db, false)
  | some row =>
      let rc := dbUpdateStatusRow row status details
      (fun k => if k = id then some rc.1 else db k, rc.2)

/-- The promotion step of `scheduled_call_checker` for one due campaign
(services/call_service.py line 657): `Call.update_status(id, 'ready',
'Ready for execution')`; the worker spawns the execution task iff the
returned boolean is True. -/
def promote_campaign (db : String → Option CampaignRow) (id : String) :
    (String → Option CampaignRow) × Bool :=
  Call.update_status db id "ready" (some "Ready for execution")

/-- C2: two workers promoting the same pending campaign serialize their
UPDATEs on the row; the first flip succeeds (the status actually changes
from `pending`), the second reports no changed row and is a silent no-op
(False, table untouched), so exactly one worker spawns the execution task,
and the persisted status ends up `ready`. -/
theorem c2_promotion_race (db : String → Option CampaignRow) (id : String)
    (row : CampaignRow) (hdb : db id = some row)
    (hp : row.status = "pending") :
    (promote_campaign db id).2 = true ∧
    (promote_campaign (promote_campaign db id).1 id).2 = false ∧
    (∀ k, (promote_campaign (promote_campaign db id).1 id).1 k =
      (promote_campaign db id).1 k) ∧
    ((promote_campaign db id).1 id).map CampaignRow.status = some "ready" := by
  refine ⟨?_, ?_, ?_, ?_⟩
  · simp [promote_campaign, Call.update_status, dbUpdateStatusRow, hdb, hp]
  · simp [promote_campaign, Call.update_status, dbUpdateStatusRow, hdb, hp]
  · intro k
    by_cases hk : k = id <;>
      simp [promote_campaign, Call.update_status, dbUpdateStatusRow, hdb, hp, hk]
  · simp [promote_campaign, Call.update_status, dbUpdateStatusRow, hdb, hp]

/-- A concrete one-row campaign table: campaign "7" is pending. -/
def c2Db : String → Option CampaignRow :=
  fun k => if k = "7" then some ⟨"pending", none⟩ else none

/-- C2 witness: on the concrete pending campaign "7", the first promotion
returns True, the second returns False, and the row ends up `ready`. -/
theorem c2_witness_two_promotions :
    (promote_campaign c2Db "7").2 = true ∧
    (promote_campaign (promote_campaign c2Db "7").1 "7").2 = false ∧
    ((promote_campaign c2Db "7").1 "7").map CampaignRow.status = some "ready" :=
  ⟨(c2_promotion_race c2Db "7" ⟨"pending", none⟩ (by decide) rfl).1,
   (c2_promotion_race c2Db "7" ⟨"pending", none⟩ (by decide) rfl).2.1,
   (c2_promotion_race c2Db "7" ⟨"pending", none⟩ (by decide) rfl).2.2.2⟩

/-! ### C7: every attempted origination leaves a record -/

/-- Point update of one campaign's phone map through `update_call_status`. -/
def storeUpdate (store : String → Option CallRecord) (phone : String)
    (now : ℚ) (status : CallStatus)
    (details action_id uniqueid : Option String) :
    String → Option CallRecord :=
  fun p =>
    if p = phone then
      update_call_status (store phone) now status details action_id uniqueid
    else store p

/-- The outcomes `auto_execute_call` distinguishes once a member's attempt
reaches the origination stage (services/call_service.py lines 499-561). -/
inductive OriginateOutcome
  | sent
  | sendFailed
  | clientUnavailable
  | errorDuringAttempt
  deriving DecidableEq, Repr

/-- The per-member body of the dial loop of `auto_execute_call`
(services/call_service.py lines 499-561), from the point the attempt
reaches the origination stage: the `dialing` record is written directly
into `active_calls` before the originate is issued (lines 507-517); then a
failed `send_action` pushes `rejected` (line 551), a missing AMI client
pushes `rejected` with no preceding send (line 554), and an exception
inside the loop body is caught and pushes `rejected` without an action id
(line 561).  `t1` is the time of the dialing write, `t2` of the rejected
update. -/
def auto_execute_attempt (store : String → Option CallRecord) (phone : String)
    (t1 t2 : ℚ) (aid : String) (o : OriginateOutcome) :
    String → Option CallRecord :=
  let store1 : String → Option CallRecord := fun p =>
    if p = phone then
      some { status := CallStatus.dialing
             details := some "Auto-initiated"
             timestamp := t1
             action_id := some aid
             uniqueid := none
             finalized_in_memory := false }
    else store p
  match o with
  | .sent => store1
  | .sendFailed =>
      storeUpdate store1 phone t2 CallStatus.rejected
        (some "Failed AMI originate") (some aid) none
  | .clientUnavailable =>
      storeUpdate store1 phone t2 CallStatus.rejected
        (some "AMI client unavailable") (some aid) none
  | .errorDuringAttempt =>
      storeUpdate store1 phone t2 CallStatus.rejected (some "Error") none none

/-- C7: whatever the outcome of the origination stage — send succeeded,
send failed, AMI client unavailable, or an error raised during the attempt
— the Call State Store afterwards holds a record for the recipient, and its
status is `dialing` or `rejected`. -/
theorem c7_attempt_leaves_record (store : String → Option CallRecord)
    (phone : String) (t1 t2 : ℚ) (aid : String) (o : OriginateOutcome) :
    ∃ r, auto_execute_attempt store phone t1 t2 aid o phone = some r ∧
      (r.status = CallStatus.dialing ∨ r.status = CallStatus.rejected) := by
  cases o with
  | sent =>
      refine ⟨⟨CallStatus.dialing, some "Auto-initiated", t1, some aid, none,
        false⟩, ?_, Or.inl rfl⟩
      simp [auto_execute_attempt]
  | sendFailed =>
      refine ⟨⟨CallStatus.rejected, some "Failed AMI originate", t2, some aid,
        none, true⟩, ?_, Or.inr rfl⟩
      simp [auto_execute_attempt, storeUpdate, update_call_status, allowB,
        significance, isDialingOrRinging, defOverrideB, stuckOverrideB,
        isTerminal, Option.orElse]
  | clientUnavailable =>
      refine ⟨⟨CallStatus.rejected, some "AMI client unavailable", t2,
        some aid, none, true⟩, ?_, Or.inr rfl⟩
      simp [auto_execute_attempt, storeUpdate, update_call_status, allowB,
        significance, isDialingOrRinging, defOverrideB, stuckOverrideB,
        isTerminal, Option.orElse]
  | errorDuringAttempt =>
      refine ⟨⟨CallStatus.rejected, some "Error", t2, some aid, none, true⟩,
        ?_, Or.inr rfl⟩
      simp [auto_execute_attempt, storeUpdate, update_call_status, allowB,
        significance, isDialingOrRinging, defOverrideB, stuckOverrideB,
        isTerminal, Option.orElse]

/-! ### C10: completion check and stale cleanup -/

/-- `is_call_complete` (services/asterisk_service.py lines 482-495) for one
campaign's phone map: a missing record counts as complete; otherwise the
record is complete when its status is terminal or it is finalized. -/
def is_call_complete (store : String → Option CallRecord) (phone : String) :
    Bool :=
  match store phone with
  | none => true
  | some r => isTerminal r.status || r.finalized_in_memory

/-- The per-record part of `cleanup_stale_active_calls`
(services/call_service.py lines 706-721) for one still-active campaign:
finalized records older than 300 s (5 minutes) are removed. -/
def cleanup_stale_calls (store : String → Option CallRecord) (now : ℚ) :
    String → Option CallRecord :=
  fun p =>
    match store p with
    | none => none
    | some r =>
        if r.finalized_in_memory && decide (now - r.timestamp > 300) then none
        else some r

/-- The active-call count of `monitor_auto_call_completion`
(services/call_service.py line 758): the number of recipients whose call is
not yet complete; the campaign is marked completed after this count stays
zero for two consecutive checks. -/
def active_call_count (store : String → Option CallRecord)
    (phones : List String) : Nat :=
  (phones.filter fun p => !is_call_complete store p).length

/-- C10: a recipient with no record counts as complete; a finalized record
older than 5 minutes is removed by stale cleanup, after which the recipient
counts as complete; and when the monitor's active count is zero, every
listed recipient's call is complete — so removed or never-created records
are treated as finished calls when deciding completion. -/
theorem c10_absent_record_is_complete (store : String → Option CallRecord)
    (pa pb : String) (now : ℚ) (r : CallRecord) (phones : List String) :
    (store pa = none → is_call_complete store pa = true) ∧
    (store pb = some r → r.finalized_in_memory = true →
      now - r.timestamp > 300 →
      cleanup_stale_calls store now pb = none ∧
      is_call_complete (cleanup_stale_calls store now) pb = true) ∧
    (active_call_count store phones = 0 →
      ∀ p ∈ phones, is_call_complete store p = true) := by
  refine ⟨?_, ?_, ?_⟩
  · intro h
    simp [is_call_complete, h]
  · intro h hf hgt
    have hd : decide (now - r.timestamp > 300) = true := by
      simpa using hgt
    constructor
    · simp [cleanup_stale_calls, h, hf, hd]
    · simp [is_call_complete, cleanup_stale_calls, h, hf, hd]
  · intro h p hp
    simp only [active_call_count, List.length_eq_zero,
      List.filter_eq_nil_iff] at h
    have := h p hp
    simpa using this

/-- A concrete one-phone store: a finalized `completed` record written at
time 0. -/
def c10Store : String → Option CallRecord :=
  fun p =>
    if p = "15550001111" then
      some ⟨CallStatus.completed, none, 0, none, none, true⟩
    else none

/-- C10 witness: an unknown phone is complete; after cleanup at time 301 s
the finalized record is gone and the phone counts complete; and with a zero
active count the listed phone is complete. -/
theorem c10_witness_cleanup_and_count :
    (is_call_complete c10Store "nobody" = true) ∧
    (cleanup_stale_calls c10Store 301 "15550001111" = none ∧
      is_call_complete (cleanup_stale_calls c10Store 301) "15550001111" = true) ∧
    (is_call_complete c10Store "15550001111" = true) :=
  ⟨(c10_absent_record_is_complete c10Store "nobody" "15550001111" 301
      ⟨CallStatus.completed, none, 0, none, none, true⟩ ["15550001111"]).1
      (by decide),
   (c10_absent_record_is_complete c10Store "nobody" "15550001111" 301
      ⟨CallStatus.completed, none, 0, none, none, true⟩ ["15550001111"]).2.1
      (by decide) rfl (by norm_num),
   (c10_absent_record_is_complete c10Store "nobody" "15550001111" 301
      ⟨CallStatus.completed, none, 0, none, none, true⟩ ["15550001111"]).2.2
      (by decide) "15550001111" (by decide)⟩

/-! ### C8: connect retries with exponential backoff, no exceptions -/

/-- How one attempt of `SocketAMIClient.connect` ends
(services/asterisk_service.py lines 83-163).  Every non-success outcome is
raised inside the `try` and swallowed by one of the two `except` handlers
(lines 152-163): socket errors and the `ConnectionError`s raised for a bad
greeting (line 116), a connection closed during login (line 130) and a
failed login (line 150) by the first handler, anything else by the
catch-all second handler.  No exception escapes the loop, which is why the
embedded `connect` below is a total function into a boolean. -/
inductive AttemptResult
  | success
  | socketError
  | badGreeting
  | connectionClosed
  | loginFailed
  | unexpectedError
  deriving DecidableEq, Repr

/-- An attempt result that lands in an `except` handler. -/
def attemptFailed : AttemptResult → Bool
  | .success => false
  | _ => true

/-- The `for attempt in range(max_retries)` loop of
`SocketAMIClient.connect` (asterisk_service.py lines 83-166), with
`remaining` attempts left and the next attempt numbered `attempt`.  `env`
gives each attempt's outcome.  Returns the boolean result and the list of
backoff delays slept: after a failed attempt that is not the last, both
handlers sleep `initial_delay * (2 ** attempt)` (lines 156-158 and 163);
after the last failure the loop ends and `connect` returns False
(line 166).  An attempt that finds `self.connected` already set returns
True immediately (line 87). -/
def connectAux (env : Nat → AttemptResult) (connected : Bool) (d : ℚ)
    (attempt : Nat) : Nat → Bool × List ℚ
  | 0 => (false, [])
  | remaining + 1 =>
      if connected then (true, [])
      else if attemptFailed (env attempt) then
        if remaining = 0 then (false, [])
        else
          let rest := connectAux env connected d (attempt + 1) remaining
          (rest.1, d * 2 ^ attempt :: rest.2)
      else (true, [])

/-- `SocketAMIClient.connect(max_retries, initial_delay)`
(asterisk_service.py lines 80-166). -/
def connect (env : Nat → AttemptResult) (connected : Bool)
    (max_retries : Nat) (initial_delay : ℚ) : Bool × List ℚ :=
  connectAux env connected initial_delay 0 max_retries

/-- One unfolding step of the loop with at least one attempt remaining. -/
lemma connectAux_succ (env : Nat → AttemptResult) (c : Bool) (d : ℚ)
    (attempt n : Nat) :
    connectAux env c d attempt (n + 1) =
      if c then (true, [])
      else if attemptFailed (env attempt) then
        if n = 0 then (false, [])
        else ((connectAux env c d (attempt + 1) n).1,
          d * 2 ^ attempt :: (connectAux env c d (attempt + 1) n).2)
      else (true, []) := rfl

/-- When every remaining attempt fails, the loop returns False and sleeps
the exponential backoff delays of all but the last attempt. -/
lemma connectAux_all_fail (env : Nat → AttemptResult) (d : ℚ) :
    ∀ remaining attempt,
      (∀ i, attempt ≤ i → i < attempt + remaining →
        attemptFailed (env i) = true) →
      connectAux env false d attempt remaining =
        (false, (List.range (remaining - 1)).map fun i =>
          d * 2 ^ (attempt + i)) := by
  intro remaining
  induction remaining with
  | zero =>
      intro attempt h
      simp [connectAux]
  | succ n ih =>
      intro attempt h
      have h0 : attemptFailed (env attempt) = true := h attempt le_rfl (by omega)
      rw [connectAux_succ]
      cases n with
      | zero => simp [h0]
      | succ m =>
          have hrec := ih (attempt + 1) fun i h1 h2 => h i (by omega) (by omega)
          rw [hrec]
          have hlist : (List.range (m + 1)).map
                (fun i => d * 2 ^ (attempt + i)) =
              d * 2 ^ attempt :: (List.range m).map fun i =>
                d * 2 ^ (attempt + 1 + i) := by
            rw [List.range_succ_eq_map, List.map_cons, List.map_map]
            refine List.cons_eq_cons.mpr ⟨by rw [Nat.add_zero], ?_⟩
            refine List.map_congr_left fun i _ => ?_
            simp only [Function.comp_apply]
            have hx : attempt + Nat.succ i = attempt + 1 + i := by omega
            rw [hx]
          simp [h0, hlist]

/-- When the first non-failing attempt exists within the remaining budget,
the loop returns True. -/
lemma connectAux_first_success (env : Nat → AttemptResult) (d : ℚ) :
    ∀ remaining attempt k, attempt ≤ k → k < attempt + remaining →
      (∀ i, attempt ≤ i → i < k → attemptFailed (env i) = true) →
      attemptFailed (env k) = false →
      (connectAux env false d attempt remaining).1 = true := by
  intro remaining
  induction remaining with
  | zero =>
      intro attempt k h1 h2
      omega
  | succ n ih =>
      intro attempt k h1 h2 hpre hk
      rw [connectAux_succ]
      by_cases hek : k = attempt
      · subst hek
        simp [hk]
      · have h0 : attemptFailed (env attempt) = true :=
          hpre attempt le_rfl (by omega)
        have hn : n ≠ 0 := by omega
        have hrec := ih (attempt + 1) k (by omega) (by omega)
          (fun i hi1 hi2 => hpre i (by omega) hi2) hk
        simp [h0, hn, hrec]

/-- C8: `connect` never raises (each per-attempt failure — socket error,
bad greeting, closed connection, failed login, or any other exception — is
a caught `AttemptResult` and the function is total): starting disconnected,
if all `max_retries` attempts fail it returns False after sleeping the
exponential backoff delays `initial_delay * 2 ^ attempt` between attempts
(`delay *= 2` per attempt); and if some attempt succeeds after only
failures, it returns True. -/
theorem c8_connect_backoff_no_raise (env : Nat → AttemptResult)
    (max_retries : Nat) (initial_delay : ℚ) :
    ((∀ i, i < max_retries → attemptFailed (env i) = true) →
      connect env false max_retries initial_delay =
        (false, (List.range (max_retries - 1)).map fun i =>
          initial_delay * 2 ^ i)) ∧
    (∀ k, k < max_retries → (∀ i, i < k → attemptFailed (env i) = true) →
      attemptFailed (env k) = false →
      (connect env false max_retries initial_delay).1 = true) := by
  constructor
  · intro h
    have := connectAux_all_fail env initial_delay max_retries 0
      fun i h1 h2 => h i (by omega)
    simpa [connect] using this
  · intro k hk hpre hsucc
    exact connectAux_first_success env initial_delay max_retries 0 k
      (Nat.zero_le k) (by omega) (fun i h1 h2 => hpre i h2) hsucc

/-- C8 witness: three failing attempts return False with delays 1 s then
2 s; with a success on the second attempt the result is True. -/
theorem c8_witness_three_attempts :
    connect (fun _ => AttemptResult.socketError) false 3 1 =
      (false, (List.range 2).map fun i => (1 : ℚ) * 2 ^ i) ∧
    (connect
      (fun i => if i = 1 then AttemptResult.success
        else AttemptResult.badGreeting) false 3 1).1 = true :=
  ⟨(c8_connect_backoff_no_raise (fun _ => AttemptResult.socketError) 3 1).1
      (fun i _ => rfl),
   (c8_connect_backoff_no_raise
      (fun i => if i = 1 then AttemptResult.success
        else AttemptResult.badGreeting) 3 1).2 1 (by omega)
      (fun i hi => by
        have hi0 : i = 0 := by omega
        subst hi0
        decide)
      (by decide)⟩

/-! ### C9: socket timeouts during a connect attempt -/

/-- The socket operations one attempt of `SocketAMIClient.connect`
performs, in order. -/
inductive SockOp
  | setTimeoutOp (t : Option ℚ)
  | connectTCP
  | recvGreeting
  | sendLogin
  | recvLogin
  deriving DecidableEq, Repr

/-- The socket-operation trace of one successful connect attempt
(services/asterisk_service.py lines 102-140): `settimeout(5)` (line 103);
the TCP connect (line 106); the greeting recv (line 110); the login send
(line 120); the `n ≥ 1` recv calls of the login-response loop, which runs
until the blank-line terminator arrives (lines 126-131); and
`settimeout(None)` only after the login response was accepted (line 140). -/
def connectAttemptTrace (n : Nat) : List SockOp :=
  [SockOp.setTimeoutOp (some 5), SockOp.connectTCP, SockOp.recvGreeting,
    SockOp.sendLogin] ++
  List.replicate n SockOp.recvLogin ++ [SockOp.setTimeoutOp none]

/-- Annotate every operation with the socket timeout in effect when it
executes; `cur` is the timeout on entry (`none` = blocking, the socket
default). -/
def annotate (ops : List SockOp) (cur : Option ℚ) : List (SockOp × Option ℚ) :=
  match ops with
  | [] => []
  | SockOp.setTimeoutOp t :: rest => (SockOp.setTimeoutOp t, cur) :: annotate rest t
  | op :: rest => (op, cur) :: annotate rest cur

/-- Annotating a run of login-loop recvs keeps the current timeout. -/
lemma annotate_replicate_recvLogin (c : Option ℚ) (tail : List SockOp) :
    ∀ n, annotate (List.replicate n SockOp.recvLogin ++ tail) c =
      List.replicate n (SockOp.recvLogin, c) ++ annotate tail c := by
  intro n
  induction n with
  | zero => simp
  | succ m ih =>
      simp only [List.replicate_succ, List.cons_append, annotate]
      rw [List.append_eq, ih]

/-- The fully annotated connect-attempt trace. -/
lemma annotate_connectAttemptTrace (n : Nat) :
    annotate (connectAttemptTrace n) none =
      [(SockOp.setTimeoutOp (some 5), none), (SockOp.connectTCP, some 5),
        (SockOp.recvGreeting, some 5), (SockOp.sendLogin, some 5)] ++
      List.replicate n (SockOp.recvLogin, some 5) ++
      [(SockOp.setTimeoutOp none, some 5)] := by
  simp [connectAttemptTrace, annotate, annotate_replicate_recvLogin]

/-- C9, counterexample: in the trace of a connect attempt whose login
response arrives in one chunk, the login-response recv executes with the
5-second timeout still in effect — not with an unbounded (None) timeout as
the claim states: `settimeout(None)` only runs after a successful login. -/
theorem c9_login_recv_bounded :
    (SockOp.recvLogin, some (5 : ℚ)) ∈ annotate (connectAttemptTrace 1) none ∧
      some (5 : ℚ) ≠ (none : Option ℚ) := by
  exact ⟨by decide, by decide⟩

/-- C9, amended: during a connect attempt the 5-second timeout installed
before the TCP connect stays in effect for the TCP connect, the greeting
read and every read of the login-response loop (which still terminates only
on the blank-line protocol terminator); the timeout is cleared to unbounded
only after a successful login. -/
theorem c9_timeouts_amended (n : Nat) (p : SockOp × Option ℚ)
    (hp : p ∈ annotate (connectAttemptTrace n) none) :
    (p.1 = SockOp.connectTCP → p.2 = some 5) ∧
    (p.1 = SockOp.recvGreeting → p.2 = some 5) ∧
    (p.1 = SockOp.recvLogin → p.2 = some 5) := by
  rw [annotate_connectAttemptTrace] at hp
  simp only [List.mem_append, List.mem_cons, List.mem_singleton,
    List.mem_replicate, List.not_mem_nil, or_false] at hp
  rcases hp with ((rfl | rfl | rfl | rfl) | ⟨-, rfl⟩) | rfl <;> decide

/-- C9 witness: the login-loop recv of the one-chunk trace runs under the
5-second timeout. -/
theorem c9_witness_login_recv :
    ((SockOp.recvLogin, some (5 : ℚ)) : SockOp × Option ℚ).2 = some 5 :=
  (c9_timeouts_amended 1 (SockOp.recvLogin, some 5) (by decide)).2.2 rfl

end InfoCall
